import Mathlib

/-!
Verification development for the tavily-load reverse proxy.

The definitions below are a shallow embedding of the Go source:
* `internal/errors` (in `internal/proxy/server.go`'s second part): error
  taxonomy, `classifyError`, `ParseHTTPError`.
* `internal/keymanager/manager.go`: the key manager state, round-robin
  selection, blacklisting, error recording, stats.
* `internal/usage/tracker.go`: `CalculateRemainingPoints`, plan-first
  selection, recommended strategy.
* `internal/handler/handler.go`: the proxy retry loop
  (`proxyTavilyRequest`), the strategy handlers and the key-add /
  bulk-import text parsing.

Machine `int`/`int64` values are modelled as `Int` (the monotone counters
and the rotation cursor never approach 2^63 in any behaviour considered
here), Go's `%` on `int` is `Int.tmod` (truncated remainder), `time.Time`
is an abstract instant in nanoseconds (`Int`), and `float64` quotients are
modelled exactly in `ℚ`.  Concurrency is modelled as sequential
interleaving: every operation is a pure state transformer on `Manager`.
External collaborators (MySQL repository, Redis cache, the upstream HTTP
API) are modelled as parameters or elided where the source only writes to
them without reading back (the in-memory state is the authority for
selection, per the source).
-/

namespace TavilyLoad

/-- Five minutes in nanoseconds (`5 * time.Minute`), used by the temporary
blacklist duration in `BlacklistKey`. -/
def fiveMinutes : Int := 300000000000

/-! ## Error taxonomy (internal/errors) -/

/-- `ErrorType` string constants of `internal/errors`. -/
inductive ErrorType where
  | unauthorized
  | invalidKey
  | forbidden
  | notFound
  | badRequest
  | rateLimit
  | quotaExceeded
  | serverError
  | timeout
  | networkError
  | noKeysAvailable
  | configError
  | internalError
deriving DecidableEq, Repr

/-- `TavilyError` struct of `internal/errors`. -/
structure TavilyError where
  type : ErrorType
  message : String
  statusCode : Int
  key : String
  permanent : Bool
  retryable : Bool
deriving DecidableEq, Repr

/-- `classifyError(errorType, statusCode)` from `internal/errors`: returns
`(permanent, retryable)`.  The `statusCode` argument is unused in the Go
source as well. -/
def classifyError (errorType : ErrorType) (_statusCode : Int) : Bool × Bool :=
  match errorType with
  | .unauthorized | .invalidKey | .forbidden => (true, true)
  | .notFound | .badRequest => (false, false)
  | .rateLimit | .quotaExceeded => (false, true)
  | .serverError | .timeout | .networkError => (false, true)
  | .noKeysAvailable => (false, false)
  | _ => (false, true)

/-- `NewTavilyError` from `internal/errors`. -/
def NewTavilyError (errorType : ErrorType) (message : String) (statusCode : Int) :
    TavilyError :=
  let pr := classifyError errorType statusCode
  { type := errorType, message := message, statusCode := statusCode,
    key := "", permanent := pr.1, retryable := pr.2 }

/-- `NewTavilyErrorWithKey` from `internal/errors`. -/
def NewTavilyErrorWithKey (errorType : ErrorType) (message : String)
    (statusCode : Int) (key : String) : TavilyError :=
  { NewTavilyError errorType message statusCode with key := key }

/-- `ParseHTTPError(statusCode, body, key)` from `internal/errors`: maps an
upstream HTTP status to an error type and message, appending the body when
`0 < len(body) < 500` (Go `len` counts bytes). -/
def ParseHTTPError (statusCode : Int) (body : String) (key : String) : TavilyError :=
  let tm : ErrorType × String :=
    if statusCode = 401 then (.unauthorized, "Invalid or expired API key")
    else if statusCode = 403 then (.forbidden, "Access forbidden")
    else if statusCode = 404 then (.notFound, "Endpoint not found")
    else if statusCode = 400 then (.badRequest, "Bad request")
    else if statusCode = 429 then (.rateLimit, "Rate limit exceeded")
    else if statusCode = 432 then (.quotaExceeded, "API quota exceeded")
    else if statusCode = 433 then (.quotaExceeded, "Monthly quota exceeded")
    else if statusCode = 500 ∨ statusCode = 502 ∨ statusCode = 503 ∨ statusCode = 504 then
      (.serverError, "Server error")
    else (.internalError, "HTTP " ++ toString statusCode ++ " error")
  let message :=
    if 0 < body.utf8ByteSize ∧ body.utf8ByteSize < 500 then
      tm.2 ++ ": " ++ body
    else tm.2
  NewTavilyErrorWithKey tm.1 message statusCode key

/-! ## Usage tracker data (pkg/types, internal/usage) -/

/-- `KeyUsage` from `pkg/types`. -/
structure KeyUsage where
  usage : Int
  limit : Int
deriving DecidableEq, Repr

/-- `AccountUsage` from `pkg/types`. -/
structure AccountUsage where
  currentPlan : String
  planUsage : Int
  planLimit : Int
  paygoUsage : Int
  paygoLimit : Int
deriving DecidableEq, Repr

/-- `TavilyUsage` from `pkg/types`: the decoded upstream `/usage` snapshot. -/
structure TavilyUsage where
  key : KeyUsage
  account : AccountUsage
deriving DecidableEq, Repr

/-- `RemainingPoints` from `pkg/types`; the three `float64` utilisation
ratios are modelled exactly in `ℚ`. -/
structure RemainingPoints where
  keyRemaining : Int
  planRemaining : Int
  paygoRemaining : Int
  totalRemaining : Int
  keyUtilization : ℚ
  planUtilization : ℚ
  paygoUtilization : ℚ
deriving DecidableEq, Repr

/-- The pure computation of `Tracker.CalculateRemainingPoints` from
`internal/usage/tracker.go`, applied to the usage snapshot that the source
first fetches with `GetUsage`.  Each utilisation is the unguarded quotient
`usage/limit` when the limit is positive, and `0` otherwise; the source
performs no clamping. -/
def CalculateRemainingPoints (u : TavilyUsage) : RemainingPoints :=
  let keyRemaining := u.key.limit - u.key.usage
  let planRemaining := u.account.planLimit - u.account.planUsage
  let paygoRemaining := u.account.paygoLimit - u.account.paygoUsage
  { keyRemaining := keyRemaining
    planRemaining := planRemaining
    paygoRemaining := paygoRemaining
    totalRemaining := keyRemaining + planRemaining + paygoRemaining
    keyUtilization :=
      if 0 < u.key.limit then (u.key.usage : ℚ) / (u.key.limit : ℚ) else 0
    planUtilization :=
      if 0 < u.account.planLimit then
        (u.account.planUsage : ℚ) / (u.account.planLimit : ℚ)
      else 0
    paygoUtilization :=
      if 0 < u.account.paygoLimit then
        (u.account.paygoUsage : ℚ) / (u.account.paygoLimit : ℚ)
      else 0 }

/-- Selection strategy string constant `types.StrategyPlanFirst`. -/
def strategyPlanFirst : String := "plan_first"

/-- Selection strategy string constant `types.StrategyRoundRobin`. -/
def strategyRoundRobin : String := "round_robin"

/-- `Tracker.selectPlanFirstKey` from `internal/usage/tracker.go`.  The
tracker's `sync.Map` of usage snapshots is modelled as an association list;
Go map iteration order is unspecified, here it is the list order.  Two
passes: maximise `PlanRemaining`, then `PaygoRemaining`, among keys with
positive `TotalRemaining`. -/
def selectPlanFirstKey (allUsage : List (String × TavilyUsage)) :
    Except String String :=
  let planBest := allUsage.foldl
    (fun (acc : String × Int) kv =>
      let remaining := CalculateRemainingPoints kv.2
      if remaining.totalRemaining ≤ 0 then acc
      else if acc.2 < remaining.planRemaining then (kv.1, remaining.planRemaining)
      else acc)
    ("", -1)
  if planBest.1 ≠ "" ∧ 0 < planBest.2 then .ok planBest.1
  else
    let paygoBest := allUsage.foldl
      (fun (acc : String × Int) kv =>
        let remaining := CalculateRemainingPoints kv.2
        if remaining.totalRemaining ≤ 0 then acc
        else if acc.2 < remaining.paygoRemaining then (kv.1, remaining.paygoRemaining)
        else acc)
      ("", -1)
    if paygoBest.1 ≠ "" then .ok paygoBest.1
    else .error "no available keys with remaining quota"

/-- `Tracker.GetOptimalKey` from `internal/usage/tracker.go`. -/
def GetOptimalKey (allUsage : List (String × TavilyUsage)) (strategy : String) :
    Except String String :=
  if allUsage.isEmpty then .error "no usage information available"
  else if strategy = strategyPlanFirst then selectPlanFirstKey allUsage
  else .error "strategy not implemented in usage tracker"

/-- `Tracker.GetRecommendedStrategy` from `internal/usage/tracker.go`:
`plan_first` when the aggregated `PlanRemaining` is positive, else
`round_robin`. -/
def GetRecommendedStrategy (allUsage : List (String × TavilyUsage)) : String :=
  if allUsage.isEmpty then strategyRoundRobin
  else
    let totalPlanRemaining := allUsage.foldl
      (fun acc kv => acc + (CalculateRemainingPoints kv.2).planRemaining) 0
    if 0 < totalPlanRemaining then strategyPlanFirst else strategyRoundRobin

/-! ## Key manager (internal/keymanager/manager.go) -/

/-- `types.BlacklistEntry`: the in-memory blacklist record.  Note that the
struct has no expiry field — `BlacklistKey` passes the 5-minute `until`
timestamp only to the external repository and cache, never to this record. -/
structure BlacklistEntry where
  key : String
  reason : String
  blacklistedAt : Int
  permanent : Bool
  errorCount : Int
deriving DecidableEq, Repr

/-- `types.KeyStatus`. -/
structure KeyStatus where
  active : Bool
  errorCount : Int
  requestCount : Int
  lastUsed : Int
  lastError : String
  blacklistedAt : Int
  permanent : Bool
deriving DecidableEq, Repr

/-- The configuration fields of `internal/config` consulted by the embedded
components. -/
structure Config where
  startIndex : Int
  blacklistThreshold : Int
  maxRetries : Nat
  defaultSelectionStrategy : String
deriving DecidableEq, Repr

/-- `keymanager.Manager`: the concurrent maps are modelled as functions
from key strings, the atomic `int64` counters as `Int`. -/
structure Manager where
  keys : List String
  currentIndex : Int
  blacklist : String → Option BlacklistEntry
  keyStatus : String → Option KeyStatus
  requestCounts : String → Int
  errorCounts : String → Int
  lastUsed : String → Option Int
  selectionStrategy : String
  trackerUsage : List (String × TavilyUsage)
  config : Config

/-- `NewManager` composed with `loadKeys` and `initializeKeyStatus`:
`loadKeys` pulls the active keys (here a parameter, standing for the
repository's `GetAllActiveKeys`), fails when the set is empty, and sets the
cursor to `StartIndex % len(keys)`; `initializeKeyStatus` zeroes the
counters.  The constructor hard-codes `selectionStrategy:
types.StrategyPlanFirst`. -/
def NewManager (cfg : Config) (activeKeys : List String) : Except String Manager :=
  if activeKeys.isEmpty then
    .error "no active API keys found in database"
  else
    .ok
      { keys := activeKeys
        currentIndex := cfg.startIndex.tmod activeKeys.length
        blacklist := fun _ => none
        keyStatus := fun k =>
          if activeKeys.contains k then
            some { active := true, errorCount := 0, requestCount := 0,
                   lastUsed := 0, lastError := "", blacklistedAt := 0,
                   permanent := false }
          else none
        requestCounts := fun _ => 0
        errorCounts := fun _ => 0
        lastUsed := fun _ => none
        selectionStrategy := strategyPlanFirst
        trackerUsage := []
        config := cfg }

/-- `Manager.updateKeyUsage`: records `lastUsed`, atomically increments the
request counter, and bumps the status record when present.  The
fire-and-forget repository/cache writes touch no in-memory state. -/
def updateKeyUsage (m : Manager) (key : String) (now : Int) : Manager :=
  { m with
    lastUsed := fun k => if k = key then some now else m.lastUsed k
    requestCounts := fun k =>
      if k = key then m.requestCounts key + 1 else m.requestCounts k
    keyStatus := fun k =>
      if k = key then
        match m.keyStatus key with
        | some st => some { st with lastUsed := now, requestCount := st.requestCount + 1 }
        | none => none
      else m.keyStatus k }

/-- `Manager.BlacklistKey(key, permanent)`: builds the in-memory
`BlacklistEntry` (reason, timestamp, permanence, current error count — no
expiry field), stores it, and deactivates the status record.  The source
additionally writes `until = now + 5m` (temporary case) to the external
repository and cache only. -/
def BlacklistKey (m : Manager) (key : String) (permanent : Bool) (now : Int) :
    Manager :=
  let reason := if permanent then "permanent error" else "temporary error"
  let entry : BlacklistEntry :=
    { key := key, reason := reason, blacklistedAt := now,
      permanent := permanent, errorCount := m.errorCounts key }
  { m with
    blacklist := fun k => if k = key then some entry else m.blacklist k
    keyStatus := fun k =>
      if k = key then
        match m.keyStatus key with
        | some st => some { st with active := false, blacklistedAt := now,
                                    permanent := permanent }
        | none => none
      else m.keyStatus k }

/-- `Manager.RecordError(key, err)`: increments the error counter and
status record, then blacklists the key when the counter reaches
`BlacklistThreshold`, permanently iff the error is permanent. -/
def RecordError (m : Manager) (key : String) (err : TavilyError) (now : Int) :
    Manager :=
  let m1 :=
    { m with
      errorCounts := fun k =>
        if k = key then m.errorCounts key + 1 else m.errorCounts k
      keyStatus := fun k =>
        if k = key then
          match m.keyStatus key with
          | some st => some { st with errorCount := st.errorCount + 1,
                                      lastError := err.message }
          | none => none
        else m.keyStatus k }
  if m.config.blacklistThreshold ≤ m.errorCounts key + 1 then
    BlacklistKey m1 key err.permanent now
  else m1

/-- `Manager.ResetKeys`: clears the whole blacklist map and restores fresh
status records and zero counters for every loaded key. -/
def ResetKeys (m : Manager) : Manager :=
  { m with
    blacklist := fun _ => none
    keyStatus := fun k =>
      if m.keys.contains k then
        some { active := true, errorCount := 0, requestCount := 0,
               lastUsed := 0, lastError := "", blacklistedAt := 0,
               permanent := false }
      else m.keyStatus k
    requestCounts := fun k => if m.keys.contains k then 0 else m.requestCounts k
    errorCounts := fun k => if m.keys.contains k then 0 else m.errorCounts k }

/-- The probe loop of `getRoundRobinKey`: up to `fuel` iterations, each
advancing the (unreduced) cursor and reading `keys[(cursor+1) % totalKeys]`,
skipping any key present in the blacklist map.  Membership in the map is
the only test — no timestamp is consulted. -/
def rrProbe (keys : List String) (blacklist : String → Option BlacklistEntry) :
    Nat → Int → Option (String × Int)
  | 0, _ => none
  | fuel + 1, cursor =>
    let cursor' := cursor + 1
    let index := cursor'.tmod keys.length
    let key := (keys.get? index.toNat).getD ""
    if (blacklist key).isSome then rrProbe keys blacklist fuel cursor'
    else some (key, cursor')

/-- `Manager.getRoundRobinKey`: fails when no keys are loaded, probes at
most `totalKeys` positions, and on success updates usage statistics for the
selected key. -/
def getRoundRobinKey (m : Manager) (now : Int) :
    Except TavilyError String × Manager :=
  let totalKeys := m.keys.length
  if totalKeys = 0 then
    (.error (NewTavilyError .noKeysAvailable "no API keys available" 500), m)
  else
    match rrProbe m.keys m.blacklist totalKeys m.currentIndex with
    | some (key, cursor') =>
      (.ok key, updateKeyUsage { m with currentIndex := cursor' } key now)
    | none =>
      (.error (NewTavilyError .noKeysAvailable "all API keys are blacklisted" 500),
       { m with currentIndex := m.currentIndex + totalKeys })

/-- `Manager.GetNextKeyWithStrategy`: for `plan_first`, consult the usage
tracker first and accept its key when it is not blacklisted; in every other
case fall back to round-robin. -/
def GetNextKeyWithStrategy (m : Manager) (strategy : String) (now : Int) :
    Except TavilyError String × Manager :=
  if strategy = strategyPlanFirst then
    match GetOptimalKey m.trackerUsage strategy with
    | .ok key =>
      if (m.blacklist key).isNone then (.ok key, updateKeyUsage m key now)
      else getRoundRobinKey m now
    | .error _ => getRoundRobinKey m now
  else getRoundRobinKey m now

/-- `Manager.GetNextKey`: selection under the manager's current strategy. -/
def GetNextKey (m : Manager) (now : Int) : Except TavilyError String × Manager :=
  GetNextKeyWithStrategy m m.selectionStrategy now

/-- `Manager.SetSelectionStrategy`. -/
def SetSelectionStrategy (m : Manager) (strategy : String) : Manager :=
  { m with selectionStrategy := strategy }

/-- `Manager.GetSelectionStrategy`. -/
def GetSelectionStrategy (m : Manager) : String :=
  m.selectionStrategy

/-- `types.KeyStats` as produced by `GetStats`. -/
structure KeyStats where
  totalKeys : Nat
  currentIndex : Int
  activeKeys : Nat
  blacklistedKeys : Nat
  requestCounts : String → Int
  errorCounts : String → Int

/-- `Manager.GetStats`: the aggregate snapshot.  The source computes
`currentIndex % totalKeys` with Go's `%`, which panics when
`totalKeys = 0`; here the quotient is `Int.tmod` and the division-by-zero
safety claim is stated separately. -/
def GetStats (m : Manager) : KeyStats :=
  { totalKeys := m.keys.length
    currentIndex := m.currentIndex.tmod m.keys.length
    activeKeys :=
      (m.keys.filter (fun k => ((m.keyStatus k).map (·.active)).getD false)).length
    blacklistedKeys :=
      (m.keys.filter (fun k =>
        ((m.keyStatus k).map (fun st => !st.active)).getD false)).length
    requestCounts := fun k => m.requestCounts k
    errorCounts := fun k => m.errorCounts k }

/-! ## HTTP handler layer (internal/handler/handler.go) -/

/-- Shallow model of an HTTP response written to the client: status code
and a short body or diagnostic. -/
structure HttpResponse where
  status : Int
  body : String
deriving DecidableEq, Repr

/-- The result delivered to a client of the proxy pipeline: either the
upstream success status streamed back, or an error response. -/
inductive ClientResult where
  | proxied (status : Int)
  | failed (status : Int) (message : String)
deriving DecidableEq, Repr

/-- The retry loop of `proxyTavilyRequest`.  `upstream attempt key` is the
outcome of `makeRequest` at the given attempt with the given key: `.ok s`
is a `< 400` response with status `s` (streamed back verbatim), `.error e`
a transport failure or `ParseHTTPError` result.  `remaining` counts the
attempts left out of `MaxRetries + 1`; `usedKeys` accumulates the keys of
performed upstream attempts (most recent first, reversed on exit).  On a
selection failure the client gets HTTP 503 immediately; a non-retryable
error breaks out of the loop; exhaustion returns the last classified
error's own status code and message. -/
def proxyLoop (upstream : Nat → String → Except TavilyError Int) (now : Int) :
    Nat → Nat → Option TavilyError → Manager → List String →
    ClientResult × List String × Manager
  | _, 0, lastErr, m, usedKeys =>
    (match lastErr with
     | some e => .failed e.statusCode e.message
     | none => .failed 500 "Request failed after all retries",
     usedKeys.reverse, m)
  | attempt, remaining + 1, _lastErr, m, usedKeys =>
    match GetNextKey m now with
    | (.error _, m') => (.failed 503 "No API keys available", usedKeys.reverse, m')
    | (.ok apiKey, m') =>
      match upstream attempt apiKey with
      | .ok status => (.proxied status, (apiKey :: usedKeys).reverse, m')
      | .error e =>
        let m'' := RecordError m' apiKey e now
        if e.retryable then
          proxyLoop upstream now (attempt + 1) remaining (some e) m'' (apiKey :: usedKeys)
        else
          (.failed e.statusCode e.message, (apiKey :: usedKeys).reverse, m'')

/-- `Handler.proxyTavilyRequest`: runs the retry loop for attempts
`0 .. MaxRetries`.  Returns the client-visible result, the keys used for
upstream attempts in order, and the final manager state. -/
def proxyTavilyRequest (m : Manager)
    (upstream : Nat → String → Except TavilyError Int) (now : Int) :
    ClientResult × List String × Manager :=
  proxyLoop upstream now 0 (m.config.maxRetries + 1) none m []

/-- `Handler.setStrategyHandler`: `body` is the decoded `strategy` field
(`none` when the JSON body does not decode).  An unknown strategy is
rejected with HTTP 400 before `SetSelectionStrategy` runs. -/
def setStrategyHandler (m : Manager) (body : Option String) :
    HttpResponse × Manager :=
  match body with
  | none => ({ status := 400, body := "Invalid request body" }, m)
  | some strategy =>
    if strategy = strategyPlanFirst ∨ strategy = strategyRoundRobin then
      ({ status := 200, body := "Selection strategy updated" },
       SetSelectionStrategy m strategy)
    else ({ status := 400, body := "Invalid strategy" }, m)

/-- The response document of `Handler.getStrategyHandler`. -/
structure StrategyResponse where
  currentStrategy : String
  recommendedStrategy : String
  availableStrategies : List String
deriving DecidableEq, Repr

/-- `Handler.getStrategyHandler`: reports the manager's current strategy,
the tracker's recommendation and the two available strategies. -/
def getStrategyHandler (m : Manager) : StrategyResponse :=
  { currentStrategy := GetSelectionStrategy m
    recommendedStrategy := GetRecommendedStrategy m.trackerUsage
    availableStrategies := [strategyPlanFirst, strategyRoundRobin] }

/-- Embedding of Go `strings.HasPrefix` on the character lists underlying
the strings (structural, so that concrete instances evaluate in the
kernel). -/
def startsWithChars : List Char → List Char → Bool
  | _, [] => true
  | [], _ :: _ => false
  | c :: cs, d :: ds => c = d && startsWithChars cs ds

/-- `strings.HasPrefix(s, pat)`. -/
def goStartsWith (s pat : String) : Bool :=
  startsWithChars s.data pat.data

/-- Dropping leading and trailing whitespace from a character list. -/
def trimChars (l : List Char) : List Char :=
  ((l.dropWhile Char.isWhitespace).reverse.dropWhile Char.isWhitespace).reverse

/-- `strings.TrimSpace`. -/
def goTrim (s : String) : String :=
  String.mk (trimChars s.data)

/-- Splitting a character list into newline-separated lines, as
`bufio.Scanner` with `ScanLines` does (the scanner also strips a trailing
carriage return, which `goTrim` removes anyway). -/
def splitLinesChars : List Char → List (List Char)
  | [] => [[]]
  | c :: cs =>
    match splitLinesChars cs with
    | [] => [[]]
    | line :: rest =>
      if c = Char.ofNat 10 then [] :: line :: rest else (c :: line) :: rest

/-- The decoded body of a single-key add request. -/
structure AddKeyRequest where
  key : String
  name : String
  description : String
deriving DecidableEq, Repr

/-- Outcome of the repository's `CreateKey`, as distinguished by
`addKeyHandler`: success, a duplicate-entry error, or another failure. -/
inductive CreateKeyResult where
  | ok
  | duplicate
  | otherError (message : String)
deriving DecidableEq, Repr

/-- `Handler.addKeyHandler`: rejects an undecodable body with 400, a key
without the `tvly-` leading characters with 400 (the later empty-key check
is unreachable, since `""` lacks them too), maps a duplicate to 409, another
repository failure to 500, and success to 201. -/
def addKeyHandler (body : Option AddKeyRequest)
    (createKey : String → String → String → CreateKeyResult) : HttpResponse :=
  match body with
  | none => { status := 400, body := "Invalid request body" }
  | some request =>
    if ¬ goStartsWith request.key "tvly-" then
      { status := 400, body := "Invalid key format: key must start with 'tvly-'" }
    else if request.key = "" then
      { status := 400, body := "Key is required" }
    else
      let name := if request.name = "" then "API Key" else request.name
      match createKey request.key name request.description with
      | .ok => { status := 201, body := "API key added successfully" }
      | .duplicate => { status := 409, body := "Key already exists" }
      | .otherError _ => { status := 500, body := "Failed to create key" }

/-- `Handler.parseKeysFromText`: split into lines, trim whitespace, skip
empty lines and lines beginning with `#`, and keep only lines starting with
`tvly-`. -/
def parseKeysFromText (text : String) : List String :=
  (splitLinesChars text.data).filterMap fun rawLine =>
    let line := String.mk (trimChars rawLine)
    if line = "" then none
    else if goStartsWith line "#" then none
    else if ¬ goStartsWith line "tvly-" then none
    else some line

/-! ## Operation traces

The handler performs, per upstream attempt, a `GetNextKey` (which records
the request against the selected key) followed by at most one
`RecordError` against that same key — see `proxyTavilyRequest` lines
114–148 of `internal/handler/handler.go`.  `KmOp` is the resulting
alphabet of key-manager operations, with the management reset included. -/
inductive KmOp where
  | attempt (failure : Option TavilyError)
  | reset
deriving Repr

/-- Apply one `KmOp` to the manager state. -/
def applyOp (now : Int) (m : Manager) : KmOp → Manager
  | .attempt failure =>
    match GetNextKey m now with
    | (.ok key, m') =>
      match failure with
      | some err => RecordError m' key err now
      | none => m'
    | (.error _, m') => m'
  | .reset => ResetKeys m

/-- Run a list of key-manager operations from a starting state. -/
def runOps (now : Int) (ops : List KmOp) (m : Manager) : Manager :=
  ops.foldl (applyOp now) m

/-- `n` sequential selections (`GetNextKey`), collecting the selected keys
in order. -/
def selectSeq (now : Int) : Nat → Manager → List String × Manager
  | 0, m => ([], m)
  | n + 1, m =>
    match GetNextKey m now with
    | (.ok key, m') =>
      let rest := selectSeq now n m'
      (key :: rest.1, rest.2)
    | (.error _, m') => selectSeq now n m'

/-! ## Concrete fixtures -/

/-- A throwaway manager used only as the default of `Except.toOption` on
constructions that provably succeed. -/
def emptyManager : Manager :=
  { keys := []
    currentIndex := 0
    blacklist := fun _ => none
    keyStatus := fun _ => none
    requestCounts := fun _ => 0
    errorCounts := fun _ => 0
    lastUsed := fun _ => none
    selectionStrategy := strategyPlanFirst
    trackerUsage := []
    config := { startIndex := 0, blacklistThreshold := 1, maxRetries := 3,
                defaultSelectionStrategy := strategyRoundRobin } }

/-- The configuration of rotation scenario 1 of the spec: start index 0,
defaults otherwise (threshold 1, three retries, default strategy
`round_robin`). -/
def cfgRotation : Config :=
  { startIndex := 0, blacklistThreshold := 1, maxRetries := 3,
    defaultSelectionStrategy := strategyRoundRobin }

/-- The manager of rotation scenario 1: keys `K1,K2,K3` in order, strategy
set to `round_robin`, no errors. -/
def managerRotation : Manager :=
  SetSelectionStrategy
    ((NewManager cfgRotation ["K1", "K2", "K3"]).toOption.getD emptyManager)
    strategyRoundRobin

/-- A manager with the single key `K1`, used for the blacklist-expiry
scenario. -/
def managerSingleK1 : Manager :=
  (NewManager cfgRotation ["K1"]).toOption.getD emptyManager

/-- A snapshot whose key usage exceeds its key limit. -/
def usageOverLimit : TavilyUsage :=
  { key := { usage := 2, limit := 1 }
    account := { currentPlan := "", planUsage := 0, planLimit := 0,
                 paygoUsage := 0, paygoLimit := 0 } }

/-- A snapshot with all three usages within their positive limits. -/
def usageWithinLimits : TavilyUsage :=
  { key := { usage := 1, limit := 2 }
    account := { currentPlan := "dev", planUsage := 1, planLimit := 2,
                 paygoUsage := 1, paygoLimit := 2 } }

/-- Configuration for the retry scenarios: a high blacklist threshold and
two retries. -/
def cfgRetry : Config :=
  { startIndex := 0, blacklistThreshold := 10, maxRetries := 2,
    defaultSelectionStrategy := strategyRoundRobin }

/-- A single-key round-robin manager for the retry scenarios. -/
def managerRetry : Manager :=
  SetSelectionStrategy ((NewManager cfgRetry ["K1"]).toOption.getD emptyManager)
    strategyRoundRobin

/-! ## Helper lemmas -/

/-- `rrProbe` finds a key on any positive fuel when nothing is
blacklisted. -/
theorem rrProbe_isSome (keys : List String)
    (blacklist : String → Option BlacklistEntry) (fuel : Nat) (cursor : Int)
    (hb : ∀ k, blacklist k = none) (hf : fuel ≠ 0) :
    ∃ p, rrProbe keys blacklist fuel cursor = some p := by
  cases fuel with
  | zero => exact absurd rfl hf
  | succ n =>
    unfold rrProbe
    simp [hb]

/-- `getRoundRobinKey` changes none of the listed manager fields. -/
theorem getRoundRobinKey_preserves (m : Manager) (now : Int) :
    ((getRoundRobinKey m now).2).keys = m.keys ∧
    ((getRoundRobinKey m now).2).blacklist = m.blacklist ∧
    ((getRoundRobinKey m now).2).errorCounts = m.errorCounts ∧
    ((getRoundRobinKey m now).2).config = m.config ∧
    ((getRoundRobinKey m now).2).selectionStrategy = m.selectionStrategy ∧
    ((getRoundRobinKey m now).2).trackerUsage = m.trackerUsage := by
  simp only [getRoundRobinKey]
  split
  · exact ⟨rfl, rfl, rfl, rfl, rfl, rfl⟩
  · split
    · exact ⟨rfl, rfl, rfl, rfl, rfl, rfl⟩
    · exact ⟨rfl, rfl, rfl, rfl, rfl, rfl⟩

/-- `GetNextKey` changes none of the listed manager fields. -/
theorem GetNextKey_preserves (m : Manager) (now : Int) :
    ((GetNextKey m now).2).keys = m.keys ∧
    ((GetNextKey m now).2).blacklist = m.blacklist ∧
    ((GetNextKey m now).2).errorCounts = m.errorCounts ∧
    ((GetNextKey m now).2).config = m.config ∧
    ((GetNextKey m now).2).selectionStrategy = m.selectionStrategy ∧
    ((GetNextKey m now).2).trackerUsage = m.trackerUsage := by
  unfold GetNextKey GetNextKeyWithStrategy
  split
  · split
    · split
      · exact ⟨rfl, rfl, rfl, rfl, rfl, rfl⟩
      · exact getRoundRobinKey_preserves m now
    · exact getRoundRobinKey_preserves m now
  · exact getRoundRobinKey_preserves m now

/-- Request-counter effect of `getRoundRobinKey`: on failure the counters
are unchanged, on success exactly the selected key's counter grows by one. -/
theorem getRoundRobinKey_requestCounts (m : Manager) (now : Int) :
    ((getRoundRobinKey m now).1.isOk = false ∧
      ∀ k, ((getRoundRobinKey m now).2).requestCounts k = m.requestCounts k) ∨
    (∃ key, (getRoundRobinKey m now).1 = .ok key ∧
      ∀ k, ((getRoundRobinKey m now).2).requestCounts k =
        if k = key then m.requestCounts k + 1 else m.requestCounts k) := by
  by_cases hlen : m.keys.length = 0
  · left
    constructor
    · simp only [getRoundRobinKey, hlen]; rfl
    · intro k; simp [getRoundRobinKey, hlen]
  · cases hpr : rrProbe m.keys m.blacklist m.keys.length m.currentIndex with
    | none =>
      left
      constructor
      · simp only [getRoundRobinKey, if_neg hlen, hpr]; rfl
      · intro k; simp [getRoundRobinKey, hlen, hpr]
    | some p =>
      right
      obtain ⟨key', cursor'⟩ := p
      refine ⟨key', ?_, ?_⟩
      · simp only [getRoundRobinKey, if_neg hlen, hpr]
      · intro k
        simp only [getRoundRobinKey, if_neg hlen, hpr, updateKeyUsage]
        by_cases hk : k = key'
        · subst hk; simp
        · simp [hk]

/-- Request-counter effect of `GetNextKey`: on failure the counters are
unchanged, on success exactly the selected key's counter grows by one. -/
theorem GetNextKey_requestCounts (m : Manager) (now : Int) :
    ((GetNextKey m now).1.isOk = false ∧
      ∀ k, ((GetNextKey m now).2).requestCounts k = m.requestCounts k) ∨
    (∃ key, (GetNextKey m now).1 = .ok key ∧
      ∀ k, ((GetNextKey m now).2).requestCounts k =
        if k = key then m.requestCounts k + 1 else m.requestCounts k) := by
  unfold GetNextKey GetNextKeyWithStrategy
  by_cases hs : m.selectionStrategy = strategyPlanFirst
  · simp only [if_pos hs]
    cases hopt : GetOptimalKey m.trackerUsage m.selectionStrategy with
    | error e => simp only [hopt]; exact getRoundRobinKey_requestCounts m now
    | ok key' =>
      simp only [hopt]
      by_cases hbl : (m.blacklist key').isNone = true
      · right
        refine ⟨key', ?_, ?_⟩
        · simp [hbl]
        · intro k
          simp only [if_pos hbl, updateKeyUsage]
          by_cases hk : k = key'
          · subst hk; simp
          · simp [hk]
      · simp only [if_neg hbl]
        exact getRoundRobinKey_requestCounts m now
  · simp only [if_neg hs]
    exact getRoundRobinKey_requestCounts m now

/-- With at least one loaded key and an empty blacklist, selection always
succeeds. -/
theorem getRoundRobinKey_isOk (m : Manager) (now : Int) (hk : m.keys ≠ [])
    (hb : ∀ k, m.blacklist k = none) :
    ∃ key, (getRoundRobinKey m now).1 = .ok key := by
  have hlen : m.keys.length ≠ 0 := by
    simpa [List.length_eq_zero] using hk
  obtain ⟨⟨key, cursor'⟩, hp⟩ :=
    rrProbe_isSome m.keys m.blacklist m.keys.length m.currentIndex hb hlen
  refine ⟨key, ?_⟩
  simp only [getRoundRobinKey, if_neg hlen, hp]

/-- With at least one loaded key and an empty blacklist, `GetNextKey`
always succeeds. -/
theorem GetNextKey_isOk (m : Manager) (now : Int) (hk : m.keys ≠ [])
    (hb : ∀ k, m.blacklist k = none) :
    ∃ key, (GetNextKey m now).1 = .ok key := by
  unfold GetNextKey GetNextKeyWithStrategy
  by_cases hs : m.selectionStrategy = strategyPlanFirst
  · simp only [if_pos hs]
    cases hopt : GetOptimalKey m.trackerUsage m.selectionStrategy with
    | error e => simp only [hopt]; exact getRoundRobinKey_isOk m now hk hb
    | ok key' =>
      simp only [hopt, hb key']
      exact ⟨key', rfl⟩
  · simp only [if_neg hs]
    exact getRoundRobinKey_isOk m now hk hb

/-- `RecordError` bumps exactly the error counter of the offending key and
leaves keys, configuration, strategy, tracker data and request counters
alone. -/
theorem RecordError_spec (m : Manager) (key : String) (err : TavilyError)
    (now : Int) :
    (RecordError m key err now).keys = m.keys ∧
    (RecordError m key err now).config = m.config ∧
    (RecordError m key err now).selectionStrategy = m.selectionStrategy ∧
    (RecordError m key err now).trackerUsage = m.trackerUsage ∧
    (∀ k, (RecordError m key err now).requestCounts k = m.requestCounts k) ∧
    (∀ k, (RecordError m key err now).errorCounts k =
      if k = key then m.errorCounts k + 1 else m.errorCounts k) := by
  by_cases hth : m.config.blacklistThreshold ≤ m.errorCounts key + 1
  · refine ⟨?_, ?_, ?_, ?_, ?_, ?_⟩ <;>
      simp only [RecordError, BlacklistKey, if_pos hth] <;>
      first
        | rfl
        | (intro k; by_cases hk : k = key <;> simp [hk])
  · refine ⟨?_, ?_, ?_, ?_, ?_, ?_⟩ <;>
      simp only [RecordError, BlacklistKey, if_neg hth] <;>
      first
        | rfl
        | (intro k; by_cases hk : k = key <;> simp [hk])

/-- When the bumped error count stays below the threshold, `RecordError`
does not blacklist anything. -/
theorem RecordError_blacklist_of_lt (m : Manager) (key : String)
    (err : TavilyError) (now : Int)
    (h : m.errorCounts key + 1 < m.config.blacklistThreshold) :
    (RecordError m key err now).blacklist = m.blacklist := by
  simp only [RecordError]
  rw [if_neg]
  omega

/-- `ResetKeys` leaves the key list and configuration alone and zeroes the
counters of every loaded key. -/
theorem ResetKeys_spec (m : Manager) :
    (ResetKeys m).keys = m.keys ∧
    (ResetKeys m).config = m.config ∧
    (∀ k, (ResetKeys m).requestCounts k =
      if m.keys.contains k then 0 else m.requestCounts k) ∧
    (∀ k, (ResetKeys m).errorCounts k =
      if m.keys.contains k then 0 else m.errorCounts k) :=
  ⟨rfl, rfl, fun _ => rfl, fun _ => rfl⟩

/-- Every key-manager operation preserves the loaded key list. -/
theorem applyOp_keys (now : Int) (m : Manager) (op : KmOp) :
    (applyOp now m op).keys = m.keys := by
  cases op with
  | reset => exact (ResetKeys_spec m).1
  | attempt failure =>
    rcases hGN : GetNextKey m now with ⟨r, m'⟩
    have hpres : m'.keys = m.keys := by
      have h := (GetNextKey_preserves m now).1
      rwa [hGN] at h
    cases r with
    | error e => simpa [applyOp, hGN] using hpres
    | ok key =>
      cases failure with
      | none => simpa [applyOp, hGN] using hpres
      | some err =>
        have h2 := (RecordError_spec m' key err now).1
        simpa [applyOp, hGN] using h2.trans hpres

/-- Traces of key-manager operations preserve the loaded key list. -/
theorem runOps_keys (now : Int) (ops : List KmOp) (m : Manager) :
    (runOps now ops m).keys = m.keys := by
  induction ops generalizing m with
  | nil => rfl
  | cons op ops ih =>
    calc (runOps now ops (applyOp now m op)).keys
        = (applyOp now m op).keys := ih (applyOp now m op)
      _ = m.keys := applyOp_keys now m op

/-- Field facts of `GetNextKey` in equation form. -/
theorem GetNextKey_eq_spec (m : Manager) (now : Int)
    (r : Except TavilyError String) (m' : Manager)
    (h : GetNextKey m now = (r, m')) :
    m'.keys = m.keys ∧ m'.blacklist = m.blacklist ∧
    m'.errorCounts = m.errorCounts ∧ m'.config = m.config ∧
    m'.selectionStrategy = m.selectionStrategy ∧
    m'.trackerUsage = m.trackerUsage := by
  have hp := GetNextKey_preserves m now
  rw [h] at hp
  exact hp

/-- Request-counter effect of a successful `GetNextKey`, in equation
form. -/
theorem GetNextKey_eq_requestCounts_ok (m : Manager) (now : Int)
    (key : String) (m' : Manager) (h : GetNextKey m now = (.ok key, m')) :
    ∀ k, m'.requestCounts k =
      if k = key then m.requestCounts k + 1 else m.requestCounts k := by
  rcases GetNextKey_requestCounts m now with ⟨hfail, _⟩ | ⟨key0, hok, hreq⟩
  · rw [h] at hfail
    simp [Except.isOk, Except.toBool] at hfail
  · rw [h] at hok hreq
    have hkk : key = key0 := by simpa using hok
    subst hkk
    exact hreq

/-- Request-counter effect of a failed `GetNextKey`, in equation form. -/
theorem GetNextKey_eq_requestCounts_err (m : Manager) (now : Int)
    (e : TavilyError) (m' : Manager) (h : GetNextKey m now = (.error e, m')) :
    ∀ k, m'.requestCounts k = m.requestCounts k := by
  rcases GetNextKey_requestCounts m now with ⟨_, hreq⟩ | ⟨key0, hok, _⟩
  · rw [h] at hreq
    exact hreq
  · rw [h] at hok
    simp at hok

/-- One key-manager operation preserves `error_count ≤ request_count`
pointwise. -/
theorem applyOp_counts (now : Int) (m : Manager) (op : KmOp)
    (h : ∀ k, m.errorCounts k ≤ m.requestCounts k) :
    ∀ k, (applyOp now m op).errorCounts k ≤ (applyOp now m op).requestCounts k := by
  cases op with
  | reset =>
    intro k
    simp only [applyOp]
    rw [(ResetKeys_spec m).2.2.2 k, (ResetKeys_spec m).2.2.1 k]
    split
    · exact le_refl 0
    · exact h k
  | attempt failure =>
    rcases hGN : GetNextKey m now with ⟨r, m'⟩
    have herr := (GetNextKey_eq_spec m now r m' hGN).2.2.1
    cases r with
    | error e =>
      intro k
      simp only [applyOp, hGN]
      rw [herr, GetNextKey_eq_requestCounts_err m now e m' hGN k]
      exact h k
    | ok key =>
      have hreq := GetNextKey_eq_requestCounts_ok m now key m' hGN
      cases failure with
      | none =>
        intro k
        simp only [applyOp, hGN]
        rw [herr, hreq k]
        split
        · exact le_trans (h k) (by omega)
        · exact h k
      | some err =>
        intro k
        simp only [applyOp, hGN]
        have hre := RecordError_spec m' key err now
        rw [hre.2.2.2.2.2 k, hre.2.2.2.2.1 k, herr, hreq k]
        split
        · exact by have := h k; omega
        · exact h k

/-- Traces of key-manager operations preserve
`error_count ≤ request_count`. -/
theorem runOps_counts (now : Int) (ops : List KmOp) :
    ∀ m : Manager, (∀ k, m.errorCounts k ≤ m.requestCounts k) →
      ∀ k, (runOps now ops m).errorCounts k ≤ (runOps now ops m).requestCounts k := by
  induction ops with
  | nil => intro m h k; exact h k
  | cons op ops ih =>
    intro m h k
    exact ih (applyOp now m op) (applyOp_counts now m op h) k

/-- Division bounds for the utilisation ratios. -/
theorem utilization_bounds (usage limit : Int) (h0 : 0 ≤ usage)
    (hle : usage ≤ limit) (hpos : 0 < limit) :
    0 ≤ (usage : ℚ) / (limit : ℚ) ∧ (usage : ℚ) / (limit : ℚ) ≤ 1 := by
  have hl : (0 : ℚ) < (limit : ℚ) := by exact_mod_cast hpos
  have hu : (0 : ℚ) ≤ (usage : ℚ) := by exact_mod_cast h0
  have hul : (usage : ℚ) ≤ (limit : ℚ) := by exact_mod_cast hle
  exact ⟨div_nonneg hu hl.le, (div_le_one hl).mpr hul⟩

/-! ## Claim theorems -/

/-- C1: the spec requires lazy expiry — a key blacklisted temporarily at
`t0` (until `t0 + 5` minutes) must be skipped at `t0 + 3` minutes and
eligible again at `t0 + 6` minutes with no explicit unblacklist.  The code
violates the recovery half: `getRoundRobinKey` tests only membership in
the in-memory blacklist map, and the in-memory `BlacklistEntry` carries no
expiry, so after `BlacklistKey K1 false` at `t0 = 0` the selection fails
with `no_keys_available` at every later instant — in particular at
`t0 + 6` minutes (`now = 360·10⁹ ns`), where the spec demands that `K1` be
eligible.  The skip half at `t0 + 3` minutes holds, as an instance of the
same equation. -/
theorem C1_temporary_blacklist_never_expires :
    ∀ now : Int,
      (GetNextKeyWithStrategy (BlacklistKey managerSingleK1 "K1" false 0)
          strategyRoundRobin now).1 =
        .error (NewTavilyError .noKeysAvailable "all API keys are blacklisted" 500) :=
  fun _ => rfl

/-- C2 counterexample: with keys `K1,K2,K3`, start index 0 and strategy
`round_robin`, six sequential selections do NOT produce
`K1,K2,K3,K1,K2,K3` — the cursor is advanced before the read, so the first
selection lands on index 1, i.e. `K2`. -/
theorem C2_rotation_counterexample :
    (selectSeq 0 6 managerRotation).1 ≠ ["K1", "K2", "K3", "K1", "K2", "K3"] := by
  decide

/-- C2 amended: the six selections give `K2,K3,K1,K2,K3,K1` (advance
before read from cursor 0 starts at index 1), and afterwards each key's
request counter equals 2. -/
theorem C2_rotation_amended :
    (selectSeq 0 6 managerRotation).1 = ["K2", "K3", "K1", "K2", "K3", "K1"] ∧
    (selectSeq 0 6 managerRotation).2.requestCounts "K1" = 2 ∧
    (selectSeq 0 6 managerRotation).2.requestCounts "K2" = 2 ∧
    (selectSeq 0 6 managerRotation).2.requestCounts "K3" = 2 := by
  refine ⟨?_, ?_, ?_, ?_⟩ <;> decide

/-- C3: the error taxonomy.  Upstream statuses map to exactly the kinds
and `(permanent, retryable)` flags of the table: 401 unauthorized
(permanent, retryable); 403 forbidden (permanent, retryable); 404
not-found (neither); 400 bad-request (neither); 429 rate-limit (retryable
only); 432/433 quota-exceeded (retryable only); 500/502/503/504
server-error (retryable only); `invalid_key` is permanent and retryable;
`timeout` and `network_error` are retryable only; `no_keys_available` is
neither; every other status yields `internal_error`, which is retryable. -/
theorem C3_error_taxonomy :
    (∀ body key,
      ((ParseHTTPError 401 body key).type = .unauthorized ∧
        (ParseHTTPError 401 body key).permanent = true ∧
        (ParseHTTPError 401 body key).retryable = true) ∧
      ((ParseHTTPError 403 body key).type = .forbidden ∧
        (ParseHTTPError 403 body key).permanent = true ∧
        (ParseHTTPError 403 body key).retryable = true) ∧
      ((ParseHTTPError 404 body key).type = .notFound ∧
        (ParseHTTPError 404 body key).permanent = false ∧
        (ParseHTTPError 404 body key).retryable = false) ∧
      ((ParseHTTPError 400 body key).type = .badRequest ∧
        (ParseHTTPError 400 body key).permanent = false ∧
        (ParseHTTPError 400 body key).retryable = false) ∧
      ((ParseHTTPError 429 body key).type = .rateLimit ∧
        (ParseHTTPError 429 body key).permanent = false ∧
        (ParseHTTPError 429 body key).retryable = true) ∧
      ((ParseHTTPError 432 body key).type = .quotaExceeded ∧
        (ParseHTTPError 433 body key).type = .quotaExceeded ∧
        (ParseHTTPError 432 body key).permanent = false ∧
        (ParseHTTPError 432 body key).retryable = true) ∧
      ((ParseHTTPError 500 body key).type = .serverError ∧
        (ParseHTTPError 502 body key).type = .serverError ∧
        (ParseHTTPError 503 body key).type = .serverError ∧
        (ParseHTTPError 504 body key).type = .serverError ∧
        (ParseHTTPError 500 body key).permanent = false ∧
        (ParseHTTPError 500 body key).retryable = true)) ∧
    (∀ statusCode : Int,
      classifyError .invalidKey statusCode = (true, true) ∧
      classifyError .timeout statusCode = (false, true) ∧
      classifyError .networkError statusCode = (false, true) ∧
      classifyError .noKeysAvailable statusCode = (false, false)) ∧
    (∀ (s : Int) body key,
      s ≠ 401 → s ≠ 403 → s ≠ 404 → s ≠ 400 → s ≠ 429 → s ≠ 432 → s ≠ 433 →
      s ≠ 500 → s ≠ 502 → s ≠ 503 → s ≠ 504 →
      (ParseHTTPError s body key).type = .internalError ∧
      (ParseHTTPError s body key).permanent = false ∧
      (ParseHTTPError s body key).retryable = true) := by
  refine ⟨fun body key => ?_, fun statusCode => ⟨rfl, rfl, rfl, rfl⟩,
    fun s body key h1 h2 h3 h4 h5 h6 h7 h8 h9 h10 h11 => ?_⟩
  · refine ⟨?_, ?_, ?_, ?_, ?_, ?_, ?_⟩
    · exact ⟨rfl, rfl, rfl⟩
    · exact ⟨rfl, rfl, rfl⟩
    · exact ⟨rfl, rfl, rfl⟩
    · exact ⟨rfl, rfl, rfl⟩
    · exact ⟨rfl, rfl, rfl⟩
    · exact ⟨rfl, rfl, rfl, rfl⟩
    · exact ⟨rfl, rfl, rfl, rfl, rfl, rfl⟩
  · refine ⟨?_, ?_, ?_⟩ <;>
      simp [ParseHTTPError, NewTavilyErrorWithKey, NewTavilyError, classifyError,
        h1, h2, h3, h4, h5, h6, h7, h8, h9, h10, h11]

/-- C3 witness: the default branch at the uncategorised status 418. -/
theorem C3_error_taxonomy_witness :
    (ParseHTTPError 418 "" "k").type = .internalError ∧
    (ParseHTTPError 418 "" "k").permanent = false ∧
    (ParseHTTPError 418 "" "k").retryable = true :=
  C3_error_taxonomy.2.2 418 "" "k" (by decide) (by decide) (by decide) (by decide)
    (by decide) (by decide) (by decide) (by decide) (by decide) (by decide)
    (by decide)

/-- C6: setting a known strategy via POST `/strategy` succeeds and a
subsequent GET returns it; posting an unknown value yields HTTP 400 and
leaves the manager — in particular the previously set strategy —
unchanged. -/
theorem C6_strategy_roundtrip :
    (∀ (m : Manager) (X : String),
      X = strategyPlanFirst ∨ X = strategyRoundRobin →
      (setStrategyHandler m (some X)).1.status = 200 ∧
      GetSelectionStrategy (setStrategyHandler m (some X)).2 = X ∧
      (getStrategyHandler (setStrategyHandler m (some X)).2).currentStrategy = X) ∧
    (∀ (m : Manager) (Y : String),
      Y ≠ strategyPlanFirst → Y ≠ strategyRoundRobin →
      (setStrategyHandler m (some Y)).1.status = 400 ∧
      (setStrategyHandler m (some Y)).2 = m) := by
  constructor
  · intro m X hX
    simp [setStrategyHandler, hX, SetSelectionStrategy, GetSelectionStrategy,
      getStrategyHandler]
  · intro m Y hY1 hY2
    simp [setStrategyHandler, hY1, hY2]

/-- C6 witness: round trip at `round_robin` and rejection of `bogus`. -/
theorem C6_strategy_roundtrip_witness :
    GetSelectionStrategy (setStrategyHandler emptyManager
        (some strategyRoundRobin)).2 = strategyRoundRobin ∧
    (setStrategyHandler emptyManager (some "bogus")).1.status = 400 :=
  ⟨(C6_strategy_roundtrip.1 emptyManager strategyRoundRobin (Or.inr rfl)).2.1,
   (C6_strategy_roundtrip.2 emptyManager "bogus" (by decide) (by decide)).1⟩

/-- C7: the config option `DEFAULT_SELECTION_STRATEGY` (README: "Key
selection strategy", default `round_robin`) is read by `config.Load` but
never consulted by the key manager: `NewManager` hard-codes
`types.StrategyPlanFirst`, so the strategy in force at startup is
`plan_first` for every configuration — including `cfgRotation`, whose
configured default is `round_robin`. -/
theorem C7_default_strategy_ignored :
    (∀ (cfg : Config) (activeKeys : List String) (m : Manager),
      NewManager cfg activeKeys = .ok m →
      GetSelectionStrategy m = strategyPlanFirst) ∧
    cfgRotation.defaultSelectionStrategy = strategyRoundRobin ∧
    GetSelectionStrategy
        ((NewManager cfgRotation ["tvly-a"]).toOption.getD emptyManager) =
      strategyPlanFirst ∧
    strategyPlanFirst ≠ strategyRoundRobin := by
  refine ⟨?_, rfl, rfl, by decide⟩
  intro cfg activeKeys m h
  unfold NewManager at h
  split at h
  · cases h
  · cases h
    rfl

/-- C7 witness: the general statement applied to the concrete
configuration whose default strategy is `round_robin`. -/
theorem C7_default_strategy_ignored_witness :
    GetSelectionStrategy
        ((NewManager cfgRotation ["tvly-a"]).toOption.getD emptyManager) =
      strategyPlanFirst :=
  C7_default_strategy_ignored.1 cfgRotation ["tvly-a"] _ rfl

/-- C10: every key that passes the public intake checks starts with
`tvly-`: the text parser used by bulk import and file upload keeps only
trimmed lines with that shape (also dropping empty and `#` comment lines),
and the single-key add endpoint answers HTTP 400 whenever the submitted
key lacks it, for every repository behaviour. -/
theorem C10_key_format :
    (∀ text k, k ∈ parseKeysFromText text → goStartsWith k "tvly-" = true) ∧
    (∀ (request : AddKeyRequest)
        (createKey : String → String → String → CreateKeyResult),
      goStartsWith request.key "tvly-" = false →
      (addKeyHandler (some request) createKey).status = 400) := by
  constructor
  · intro text k hk
    simp only [parseKeysFromText, List.mem_filterMap] at hk
    obtain ⟨rawLine, _, hf⟩ := hk
    by_cases h1 : String.mk (trimChars rawLine) = ""
    · simp [h1] at hf
    · by_cases h2 : goStartsWith (String.mk (trimChars rawLine)) "#" = true
      · simp [h1, h2] at hf
      · by_cases h3 : goStartsWith (String.mk (trimChars rawLine)) "tvly-" = true
        · simp [h1, h2, h3] at hf
          subst hf
          exact h3
        · simp [h1, h2, h3] at hf
  · intro request createKey h
    simp [addKeyHandler, h]

/-- C10 witness: a concrete accepted line and a concrete rejected add
request. -/
theorem C10_key_format_witness :
    (goStartsWith "tvly-x" "tvly-" = true) ∧
    (addKeyHandler (some { key := "bad", name := "", description := "" })
        (fun _ _ _ => .ok)).status = 400 :=
  ⟨C10_key_format.1 "tvly-x" "tvly-x" (by decide),
   C10_key_format.2 { key := "bad", name := "", description := "" }
     (fun _ _ _ => .ok) (by decide)⟩

/-- C5: starting from zero counters, along every trace of handler
operations (each upstream attempt selects a key — incrementing its request
counter — and records at most one error against that same key; resets
allowed), `request_count[k] ≥ error_count[k]` holds for every key at all
times (every intermediate state is `runOps` of a trace). -/
theorem C5_request_ge_error (m : Manager) (now : Int)
    (hinit : ∀ k, m.requestCounts k = 0 ∧ m.errorCounts k = 0) :
    ∀ (ops : List KmOp) (k : String),
      (runOps now ops m).errorCounts k ≤ (runOps now ops m).requestCounts k := by
  intro ops k
  refine runOps_counts now ops m (fun k => ?_) k
  rw [(hinit k).1, (hinit k).2]

/-- C5 witness: one failing attempt on the rotation manager. -/
theorem C5_request_ge_error_witness :
    (runOps 0 [KmOp.attempt (some (ParseHTTPError 500 "" "K1"))]
        managerRotation).errorCounts "K1" ≤
      (runOps 0 [KmOp.attempt (some (ParseHTTPError 500 "" "K1"))]
        managerRotation).requestCounts "K1" :=
  C5_request_ge_error managerRotation 0 (fun _ => ⟨rfl, rfl⟩)
    [KmOp.attempt (some (ParseHTTPError 500 "" "K1"))] "K1"

/-- C8 counterexample: the claim asserts `key_utilization ∈ [0,1]` for
every snapshot with `key_limit > 0`, but the source computes the unclamped
quotient `key_usage / key_limit`: with `key_usage = 2, key_limit = 1` the
utilisation is `2 ∉ [0,1]`. -/
theorem C8_utilization_counterexample :
    0 < usageOverLimit.key.limit ∧
    ¬ ((CalculateRemainingPoints usageOverLimit).keyUtilization ≤ 1) := by
  constructor
  · decide
  · simp only [CalculateRemainingPoints, usageOverLimit]
    norm_num

/-- C8 amended: for every snapshot whose usage lies between 0 and its
positive limit, the corresponding utilisation `usage/limit` lies in
`[0,1]`; the same holds for the plan and paygo ratios. -/
theorem C8_utilization_amended (u : TavilyUsage) :
    (0 ≤ u.key.usage → u.key.usage ≤ u.key.limit → 0 < u.key.limit →
      0 ≤ (CalculateRemainingPoints u).keyUtilization ∧
      (CalculateRemainingPoints u).keyUtilization ≤ 1) ∧
    (0 ≤ u.account.planUsage → u.account.planUsage ≤ u.account.planLimit →
      0 < u.account.planLimit →
      0 ≤ (CalculateRemainingPoints u).planUtilization ∧
      (CalculateRemainingPoints u).planUtilization ≤ 1) ∧
    (0 ≤ u.account.paygoUsage → u.account.paygoUsage ≤ u.account.paygoLimit →
      0 < u.account.paygoLimit →
      0 ≤ (CalculateRemainingPoints u).paygoUtilization ∧
      (CalculateRemainingPoints u).paygoUtilization ≤ 1) := by
  refine ⟨fun h0 hle hpos => ?_, fun h0 hle hpos => ?_, fun h0 hle hpos => ?_⟩ <;>
  · simp only [CalculateRemainingPoints]
    rw [if_pos hpos]
    exact utilization_bounds _ _ h0 hle hpos

/-- C8 witness: the amended bounds at a snapshot with usage 1 of limit 2
in each bucket. -/
theorem C8_utilization_amended_witness :
    0 ≤ (CalculateRemainingPoints usageWithinLimits).keyUtilization ∧
    (CalculateRemainingPoints usageWithinLimits).keyUtilization ≤ 1 :=
  (C8_utilization_amended usageWithinLimits).1 (by decide) (by decide) (by decide)

/-- C9: a successfully constructed manager has a non-empty key list
(construction fails on an empty active set), the key list is preserved by
every operation trace, and therefore the `currentIndex % totalKeys`
computed by `GetStats` never divides by zero: `totalKeys` is positive
whenever `GetStats` runs. -/
theorem C9_stats_modulo_safe :
    ∀ (cfg : Config) (activeKeys : List String) (m : Manager),
      NewManager cfg activeKeys = .ok m →
      0 < m.keys.length ∧
      (GetStats m).totalKeys = m.keys.length ∧
      0 < (GetStats m).totalKeys ∧
      ∀ (now : Int) (ops : List KmOp),
        0 < (GetStats (runOps now ops m)).totalKeys := by
  intro cfg activeKeys m h
  unfold NewManager at h
  split at h
  · cases h
  · next hne =>
    cases h
    have hlen : 0 < activeKeys.length := by
      cases activeKeys with
      | nil => simp at hne
      | cons a as => simp
    refine ⟨hlen, rfl, hlen, ?_⟩
    intro now ops
    simp only [GetStats]
    rw [runOps_keys]
    exact hlen

/-- C9 witness: the concrete single-key construction. -/
theorem C9_stats_modulo_safe_witness :
    0 < (GetStats ((NewManager cfgRotation ["K1"]).toOption.getD
        emptyManager)).totalKeys :=
  (C9_stats_modulo_safe cfgRotation ["K1"] _ rfl).2.2.1

/-- The attempted-keys list of the retry loop grows by at most one per
remaining attempt. -/
theorem proxyLoop_length (upstream : Nat → String → Except TavilyError Int)
    (now : Int) :
    ∀ (remaining attempt : Nat) (lastErr : Option TavilyError) (m : Manager)
      (usedKeys : List String),
      (proxyLoop upstream now attempt remaining lastErr m usedKeys).2.1.length ≤
        remaining + usedKeys.length := by
  intro remaining
  induction remaining with
  | zero =>
    intro attempt lastErr m usedKeys
    cases lastErr <;> simp [proxyLoop]
  | succ r ih =>
    intro attempt lastErr m usedKeys
    rcases hGN : GetNextKey m now with ⟨rr, m'⟩
    cases rr with
    | error e =>
      simp [proxyLoop, hGN]
    | ok key =>
      cases hup : upstream attempt key with
      | ok status =>
        simp [proxyLoop, hGN, hup]
        omega
      | error e =>
        by_cases hretry : e.retryable = true
        · have hrec := ih (attempt + 1) (some e) (RecordError m' key e now)
            (key :: usedKeys)
          simp only [List.length_cons] at hrec
          simp only [proxyLoop, hGN, hup, hretry, if_true]
          omega
        · simp [proxyLoop, hGN, hup, hretry]
          omega

/-- When the upstream fails every attempt with a retryable error and no
key ever reaches the blacklist threshold, the retry loop runs to
exhaustion and reports the error of the final attempt. -/
theorem proxyLoop_all_fail (upstream : Nat → String → Except TavilyError Int)
    (errF : Nat → TavilyError) (now : Int)
    (hupstream : ∀ a k, upstream a k = .error (errF a))
    (hretry : ∀ a, (errF a).retryable = true) :
    ∀ (n attempt : Nat) (lastErr : Option TavilyError) (m : Manager)
      (usedKeys : List String),
      m.keys ≠ [] → (∀ k, m.blacklist k = none) →
      (∀ k, m.errorCounts k + (n : Int) + 1 ≤ m.config.blacklistThreshold) →
      (proxyLoop upstream now attempt (n + 1) lastErr m usedKeys).1 =
        .failed (errF (attempt + n)).statusCode (errF (attempt + n)).message := by
  intro n
  induction n with
  | zero =>
    intro attempt lastErr m usedKeys hk hb _hT
    obtain ⟨key, hkey⟩ := GetNextKey_isOk m now hk hb
    rcases hGN : GetNextKey m now with ⟨r, m'⟩
    rw [hGN] at hkey
    have hr2 : r = Except.ok key := hkey
    subst hr2
    simp [proxyLoop, hGN, hupstream attempt key, hretry attempt]
  | succ nn ih =>
    intro attempt lastErr m usedKeys hk hb hT
    obtain ⟨key, hkey⟩ := GetNextKey_isOk m now hk hb
    rcases hGN : GetNextKey m now with ⟨r, m'⟩
    rw [hGN] at hkey
    have hr2 : r = Except.ok key := hkey
    subst hr2
    have hspec := GetNextKey_eq_spec m now (Except.ok key) m' hGN
    have hm'keys : m'.keys ≠ [] := by rw [hspec.1]; exact hk
    have hm'bl : ∀ k, m'.blacklist k = none := by rw [hspec.2.1]; exact hb
    have hm'err : m'.errorCounts = m.errorCounts := hspec.2.2.1
    have hm'cfg : m'.config = m.config := hspec.2.2.2.1
    have hbelow : m'.errorCounts key + 1 < m'.config.blacklistThreshold := by
      rw [hm'err, hm'cfg]
      have := hT key
      push_cast at this
      omega
    have hre := RecordError_spec m' key (errF attempt) now
    have hreKeys : (RecordError m' key (errF attempt) now).keys ≠ [] := by
      rw [hre.1]; exact hm'keys
    have hreBl : ∀ k, (RecordError m' key (errF attempt) now).blacklist k = none := by
      intro k
      rw [RecordError_blacklist_of_lt m' key (errF attempt) now hbelow]
      exact hm'bl k
    have hreT : ∀ k, (RecordError m' key (errF attempt) now).errorCounts k +
        (nn : Int) + 1 ≤ (RecordError m' key (errF attempt) now).config.blacklistThreshold := by
      intro k
      rw [hre.2.2.2.2.2 k, hre.2.1, hm'cfg]
      have h1 := hT k
      have h2 := hT key
      rw [show m'.errorCounts k = m.errorCounts k from congrFun hm'err k]
      by_cases hkk : k = key
      · subst hkk
        simp only [if_pos rfl]
        push_cast at h1 ⊢
        omega
      · simp only [if_neg hkk]
        push_cast at h1 ⊢
        omega
    have hrec := ih (attempt + 1) (some (errF attempt))
      (RecordError m' key (errF attempt) now) (key :: usedKeys)
      hreKeys hreBl hreT
    have hidx : attempt + 1 + nn = attempt + (nn + 1) := by omega
    rw [hidx] at hrec
    simp only [proxyLoop, hGN, hupstream attempt key, hretry attempt, if_true]
    exact hrec

/-- C4: the proxy pipeline performs at most `MaxRetries + 1` upstream
attempts for every request (so at most that many distinct keys); a
non-retryable classified error stops the loop after its attempt and the
client receives that error's own status code and message; and when every
attempt fails with a retryable error (and no key reaches the blacklist
threshold mid-request), all `MaxRetries + 1` attempts happen and the
client receives the status code and message of the last classified
error. -/
theorem C4_retry_budget :
    (∀ (m : Manager) (upstream : Nat → String → Except TavilyError Int)
        (now : Int),
      (proxyTavilyRequest m upstream now).2.1.length ≤ m.config.maxRetries + 1) ∧
    (∀ (m : Manager) (upstream : Nat → String → Except TavilyError Int)
        (now : Int) (e : TavilyError),
      m.keys ≠ [] → (∀ k, m.blacklist k = none) →
      (∀ k, upstream 0 k = .error e) → e.retryable = false →
      (proxyTavilyRequest m upstream now).1 = .failed e.statusCode e.message ∧
      (proxyTavilyRequest m upstream now).2.1.length = 1) ∧
    (∀ (m : Manager) (upstream : Nat → String → Except TavilyError Int)
        (errF : Nat → TavilyError) (now : Int),
      (∀ a k, upstream a k = .error (errF a)) →
      (∀ a, (errF a).retryable = true) →
      m.keys ≠ [] → (∀ k, m.blacklist k = none) →
      (∀ k, m.errorCounts k + (m.config.maxRetries : Int) + 1 ≤
        m.config.blacklistThreshold) →
      (proxyTavilyRequest m upstream now).1 =
        .failed (errF m.config.maxRetries).statusCode
          (errF m.config.maxRetries).message) := by
  refine ⟨?_, ?_, ?_⟩
  · intro m upstream now
    have h := proxyLoop_length upstream now (m.config.maxRetries + 1) 0 none m []
    simpa [proxyTavilyRequest] using h
  · intro m upstream now e hk hb hup hr
    obtain ⟨key, hkey⟩ := GetNextKey_isOk m now hk hb
    rcases hGN : GetNextKey m now with ⟨r, m'⟩
    rw [hGN] at hkey
    have hr2 : r = Except.ok key := hkey
    subst hr2
    constructor
    · simp [proxyTavilyRequest, proxyLoop, hGN, hup key, hr]
    · simp [proxyTavilyRequest, proxyLoop, hGN, hup key, hr]
  · intro m upstream errF now hupstream hretry hk hb hT
    have h := proxyLoop_all_fail upstream errF now hupstream hretry
      m.config.maxRetries 0 none m [] hk hb hT
    simpa [proxyTavilyRequest] using h

/-- C4 witness: on the single-key retry manager (threshold 10, two
retries), a constant non-retryable 400 stops after one attempt, and a
constant retryable 500 is retried to exhaustion and reported. -/
theorem C4_retry_budget_witness :
    ((proxyTavilyRequest managerRetry
        (fun _ _ => .error (ParseHTTPError 400 "" "K1")) 0).1 =
      .failed (ParseHTTPError 400 "" "K1").statusCode
        (ParseHTTPError 400 "" "K1").message) ∧
    ((proxyTavilyRequest managerRetry
        (fun _ _ => .error (ParseHTTPError 500 "" "K1")) 0).1 =
      .failed (ParseHTTPError 500 "" "K1").statusCode
        (ParseHTTPError 500 "" "K1").message) := by
  constructor
  · exact (C4_retry_budget.2.1 managerRetry
      (fun _ _ => .error (ParseHTTPError 400 "" "K1")) 0
      (ParseHTTPError 400 "" "K1") (by decide) (fun _ => rfl) (fun _ => rfl)
      (by decide)).1
  · exact C4_retry_budget.2.2 managerRetry
      (fun _ _ => .error (ParseHTTPError 500 "" "K1"))
      (fun _ => ParseHTTPError 500 "" "K1") 0 (fun _ _ => rfl)
      (fun _ => (by decide : (ParseHTTPError 500 "" "K1").retryable = true))
      (by decide) (fun _ => rfl)
      (fun _ => (by decide :
        (0 : Int) + ((2 : Nat) : Int) + 1 ≤ (10 : Int)))

end TavilyLoad
